import Mathlib

/-!
Verification of the pdf2markdown structure-inference pipeline.

This file gives a shallow embedding, in Lean 4, of the parts of the
`pdf2markdown` code base that the specification's claims are about:

* the document data model (`src/pdf2markdown/domain/models/document.py`),
* the Markdown renderer (`Document.to_markdown`,
  `src/pdf2markdown/infrastructure/formatters/markdown_formatter.py`),
* the list detector (`src/pdf2markdown/domain/services/list_detector.py`),
* the heading detector (`src/pdf2markdown/domain/services/heading_detector.py`),
* the language detector (`src/pdf2markdown/domain/services/language_detector.py`),
* the CLI orchestration (`src/pdf2markdown/cli/main.py`).

Python `float` values are modelled as `ℚ` (all arithmetic in the embedded
code is exact on the inputs of interest), Python strings as Lean `String`
over their character lists (the code only manipulates ASCII text in the
claims at hand), and raising Python code as `Except String`.
-/

-- Batteries marks the `Rat` arithmetic operations `@[irreducible]`,
-- which blocks `decide`/`rfl` evaluation of the embedded code on
-- concrete inputs; restore the default reducibility for this file.
attribute [local semireducible] Rat.add Rat.sub Rat.mul Rat.inv

/-! ## Python string primitives -/

/-- Python `str.isspace` for a single character (ASCII whitespace:
space, tab, newline, carriage return, vertical tab, form feed). -/
def pyIsSpace (c : Char) : Bool :=
  c = ' ' || c = '\t' || c = '\n' || c = '\r' || c = '\x0b' || c = '\x0c'

/-- Left strip (Python `str.lstrip()` with no argument). -/
def lstripL (l : List Char) : List Char := l.dropWhile pyIsSpace

/-- Right strip (Python `str.rstrip()` with no argument). -/
def rstripL (l : List Char) : List Char := (l.reverse.dropWhile pyIsSpace).reverse

/-- Python `str.strip()` with no argument. -/
def stripL (l : List Char) : List Char := rstripL (lstripL l)

/-- Python `s.strip()`. -/
def pyStrip (s : String) : String := ⟨stripL s.data⟩

/-- Python `s.lstrip()`. -/
def pyLstrip (s : String) : String := ⟨lstripL s.data⟩

/-- Python `s.rstrip()`. -/
def pyRstrip (s : String) : String := ⟨rstripL s.data⟩

/-- Python `s.rstrip('\n')`: remove trailing newline characters only. -/
def rstripNl (s : String) : String := ⟨(s.data.reverse.dropWhile (· = '\n')).reverse⟩

/-- Helper for `wordsL`: accumulate the current word (reversed) while
scanning. -/
def wordsAux : List Char → List Char → List (List Char)
  | [], acc => if acc = [] then [] else [acc.reverse]
  | c :: cs, acc =>
    if pyIsSpace c then
      if acc = [] then wordsAux cs [] else acc.reverse :: wordsAux cs []
    else wordsAux cs (c :: acc)

/-- Python `str.split()` with no argument: split on whitespace runs,
dropping empty fields. -/
def pySplit (s : String) : List String := (wordsAux s.data []).map (fun l => ⟨l⟩)

/-- Python `s.lower()` (ASCII). -/
def pyLower (s : String) : String := ⟨s.data.map Char.toLower⟩

/-- Python `s.upper()` (ASCII). -/
def pyUpper (s : String) : String := ⟨s.data.map Char.toUpper⟩

/-- Is `pat` a contiguous sublist of `l`? -/
def isInfixL (pat : List Char) : List Char → Bool
  | [] => pat.isPrefixOf []
  | c :: cs => pat.isPrefixOf (c :: cs) || isInfixL pat cs

/-- Python `pat in s` (substring containment). -/
def pyContains (s pat : String) : Bool := isInfixL pat.data s.data

/-- Python `s.startswith(pat)`. -/
def pyStartsWith (s pat : String) : Bool := pat.data.isPrefixOf s.data

/-- Python `s.endswith(c)` for a single-character suffix. -/
def pyEndsWithChar (s : String) (c : Char) : Bool :=
  match s.data.getLast? with
  | some d => d = c
  | none => false

/-- Python `s.endswith(tuple)` where every element is one character. -/
def pyEndsWithAny (s : String) (cs : List Char) : Bool :=
  cs.any (pyEndsWithChar s)

/-- Python `s.split('\n')`. -/
def splitNl (s : String) : List String := (s.data.splitOn '\n').map (fun l => ⟨l⟩)

/-- Python `sep.join(parts)`. -/
def pyJoin (sep : String) : List String → String
  | [] => ""
  | [x] => x
  | x :: xs => x ++ sep ++ pyJoin sep xs

/-- Python `s.count(c)` for a single character. -/
def pyCountChar (s : String) (c : Char) : Nat := s.data.count c

/-- `"  " * level`: two spaces per nesting level. -/
def indentOf (level : Nat) : String := ⟨List.replicate (2 * level) ' '⟩

/-- Python `str(n)` for a non-negative integer. -/
def natStr (n : Nat) : String := toString n

/-! ## Data model (`domain/models/document.py`) -/

/-- `ListType` enum. -/
inductive ListType where
  | ordered
  | unordered
deriving DecidableEq, Repr

/-- `ListType.value` (the enum's string value). -/
def ListType.value : ListType → String
  | .ordered => "ordered"
  | .unordered => "unordered"

/-- `ListMarker` value object.  The Python fields `prefix` and `suffix`
are rendered here as `markerPre` and `markerSuf`. -/
structure ListMarker where
  marker_type : ListType
  symbol : String
  markerPre : String := ""
  markerSuf : String := " "
deriving DecidableEq, Repr

/-- `ListMarker.as_string()`: `prefix + symbol + suffix`. -/
def ListMarker.as_string (m : ListMarker) : String :=
  m.markerPre ++ m.symbol ++ m.markerSuf

/-- `Line` value object: one positioned row of text.
`y_position` is documented in the source as the top of the line. -/
structure Line where
  text : String
  y_position : ℚ
  x_position : ℚ
  height : ℚ
  font_size : Option ℚ := none
deriving DecidableEq, Repr

/-- `Line.vertical_spacing_to(other)` exactly as the source computes it:
`self.y_position - other.y_position - other.height`. -/
def Line.vertical_spacing_to (self other : Line) : ℚ :=
  self.y_position - other.y_position - other.height

/-- `Line.is_aligned_with(other, tolerance)`. -/
def Line.is_aligned_with (self other : Line) (tolerance : ℚ := 5) : Bool :=
  |self.x_position - other.x_position| ≤ tolerance

/-- `TextFlow` value object. -/
structure TextFlow where
  alignment : Nat := 0
  line_spacing : ℚ := 1
  indentation : ℚ := 0
  average_line_height : ℚ := 12
deriving DecidableEq, Repr

/-- `ListItem` value object (validation of `__post_init__` is modelled
separately as `ListItem.wf`; `level` is a `Nat`, so the non-negativity
check is implicit). -/
structure ListItem where
  content : String
  level : Nat
  marker : ListMarker
  lines : List Line := []
deriving DecidableEq, Repr

/-- The constraints `ListItem.__post_init__` enforces (construction
raises otherwise): level at most 3 and content non-blank. -/
def ListItem.wf (i : ListItem) : Prop :=
  i.level ≤ 3 ∧ pyStrip i.content ≠ ""

/-- `ListItem.to_markdown()`. -/
def ListItem.to_markdown (i : ListItem) : String :=
  if i.marker.marker_type = ListType.unordered then
    indentOf i.level ++ "- " ++ i.content
  else
    indentOf i.level ++ i.marker.as_string ++ i.content

/-- `CodeLanguage` closed enum. -/
inductive CodeLanguage where
  | python
  | javascript
  | java
  | cpp
  | sql
  | html
  | json
  | unknown
deriving DecidableEq, Repr

/-- The enum's lowercase string value (`""` for `UNKNOWN` on render,
see `CodeBlock.toMarkdown`). -/
def CodeLanguage.value : CodeLanguage → String
  | .python => "python"
  | .javascript => "javascript"
  | .java => "java"
  | .cpp => "cpp"
  | .sql => "sql"
  | .html => "html"
  | .json => "json"
  | .unknown => "unknown"

/-- Modelled from the spec: `CodeStyle` (immutable): indentation level,
tab usage, whitespace preservation, font family.  The class itself is
imported by `domain/models/__init__.py` but its definition is not under
`src/`. -/
structure CodeStyle where
  indentation_level : Nat := 0
  uses_tabs : Bool := false
  preserve_whitespace : Bool := true
  font_family : Option String := none
deriving DecidableEq, Repr

/-- Modelled from the spec: `CodeBlock`: ordered `lines: list<Line>`
(owned), `language: CodeLanguage`, `style: CodeStyle?`.  The class is
imported by `domain/models/__init__.py` and used by
`language_detector.py`, but its definition is not under `src/`. -/
structure CodeBlock where
  lines : List Line
  language : CodeLanguage := .unknown
  style : Option CodeStyle := none
deriving DecidableEq, Repr

/-- Modelled from the spec: `CodeBlock.content` is derived by joining
line texts with newlines, preserving original whitespace exactly. -/
def CodeBlock.content (cb : CodeBlock) : String :=
  pyJoin "\n" (cb.lines.map Line.text)

/-- Modelled from the spec (§6): a code block renders as a fenced block
whose info string is the language's lowercase enum value, or empty for
`UNKNOWN`, with the raw joined lines between the fences. -/
def CodeBlock.toMarkdown (cb : CodeBlock) : String :=
  let lang := if cb.language = CodeLanguage.unknown then "" else cb.language.value
  "```" ++ lang ++ "\n" ++ cb.content ++ "\n```"

mutual

/-- `ListBlock`: list type, items, and `nested_lists` (a dict keyed by
parent item index, modelled as an association list with unique keys). -/
inductive ListBlock where
  | mk (list_type : ListType) (items : List ListItem)
       (nested_lists : NestedLists)

/-- The `nested_lists: Dict[int, ListBlock]` as its own list-like
inductive (so that rendering is structurally recursive). -/
inductive NestedLists where
  | nil
  | cons (k : Nat) (v : ListBlock) (rest : NestedLists)

end

/-- Field accessor. -/
def ListBlock.list_type : ListBlock → ListType
  | .mk t _ _ => t

/-- Field accessor. -/
def ListBlock.items : ListBlock → List ListItem
  | .mk _ its _ => its

/-- Field accessor. -/
def ListBlock.nested_lists : ListBlock → NestedLists
  | .mk _ _ ns => ns

/-- `ListBlock.is_empty()`. -/
def ListBlock.is_empty (lb : ListBlock) : Bool := lb.items.length = 0

/-- `ListBlock._get_item_number(target)`: walk `items`, stopping at the
first item `==`-equal to the target and counting the same-level items
seen before that point (dataclass equality is field-wise equality). -/
def itemNumberLoop (items : List ListItem) (target : ListItem) (count : Nat) : Nat :=
  match items with
  | [] => count
  | i :: rest =>
    if i = target then count
    else itemNumberLoop rest target (if i.level = target.level then count + 1 else count)

/-- `ListBlock._format_item_markdown(item)`. -/
def formatItemMarkdown (t : ListType) (items : List ListItem) (item : ListItem) : String :=
  if t = ListType.unordered then
    indentOf item.level ++ "- " ++ item.content
  else
    indentOf item.level ++ natStr (itemNumberLoop items item 1) ++ ". " ++ item.content

/-- Dictionary lookup `self.nested_lists[i]`, over the already-rendered
nested lists (first matching key; dict keys are unique). -/
def lookupRendered : List (Nat × String) → Nat → Option String
  | [], _ => none
  | (k, v) :: rest, i => if k = i then some v else lookupRendered rest i

/-- The body of the `for i, item in enumerate(self.items)` loop of
`ListBlock.to_markdown`, producing the list of output lines; the nested
lists are passed pre-rendered (rendering is pure, so rendering every
dict value and looking the index up afterwards is the same as looking
up and then rendering). -/
def renderListLines (t : ListType) (allItems : List ListItem)
    (nestedR : List (Nat × String)) (i : Nat) :
    List ListItem → List String
  | [] => []
  | item :: rest =>
    let itemLine := formatItemMarkdown t allItems item
    let nestedLines :=
      match lookupRendered nestedR i with
      | some nm => if nm ≠ "" then (splitNl nm).map (fun l => "   " ++ l) else []
      | none => []
    (itemLine :: nestedLines) ++ renderListLines t allItems nestedR (i + 1) rest

mutual

/-- `ListBlock.to_markdown()`: render every item in order; whenever the
item's index has an entry in `nested_lists`, append that nested list's
rendering, each of its lines indented by three spaces. -/
def ListBlock.toMarkdown (lb : ListBlock) : String :=
  match lb with
  | .mk t items nested =>
    if items.length = 0 then ""
    else pyJoin "\n" (renderListLines t items nested.renderAll 0 items)

/-- Render every nested list, keeping its key. -/
def NestedLists.renderAll : NestedLists → List (Nat × String)
  | .nil => []
  | .cons k v rest => (k, ListBlock.toMarkdown v) :: NestedLists.renderAll rest

end

/-- `ListBlock.add_item(item)`, modelled as an explicit state transform:
the returned pair is (raised-or-ok, the block after the call).  The
source raises `ValueError` before touching `self.items`, so the block is
unchanged in the error case. -/
def ListBlock.add_item (lb : ListBlock) (item : ListItem) :
    Except String Unit × ListBlock :=
  if item.level = 0 && item.marker.marker_type ≠ lb.list_type then
    (.error ("List type mismatch: expected " ++ lb.list_type.value ++ ", got "
        ++ item.marker.marker_type.value), lb)
  else
    (.ok (), .mk lb.list_type (lb.items ++ [item]) lb.nested_lists)

/-- `Block` as a closed sum over the five variants of the model. -/
inductive Block where
  | heading (level : Nat) (content : String) (font_size : Option ℚ := none)
      (is_bold : Bool := false)
  | textBlock (content : String) (font_size : Option ℚ := none)
  | paragraph (lines : List Line) (text_flow : Option TextFlow := none)
      (font_size : Option ℚ := none) (is_continuation : Bool := false)
      (preserve_line_breaks : Bool := false)
  | listB (lb : ListBlock)
  | codeB (cb : CodeBlock)

/-- `Paragraph.content`: line texts joined by single spaces. -/
def paragraphContent (lines : List Line) : String :=
  pyJoin " " (lines.map Line.text)

/-- `Paragraph.is_empty()`: no line has non-blank text. -/
def paragraphIsEmpty (lines : List Line) : Bool :=
  !lines.any (fun l => pyStrip l.text ≠ "")

/-- The `for i, line in enumerate(self.lines)` loop of the
`preserve_line_breaks` branch of `Paragraph.to_markdown`: each non-blank
stripped line, with two trailing spaces unless the line is the last of
`self.lines` (`i < len(self.lines) - 1` is an index into the full line
list, blank lines included). -/
def preserveParts (n : Nat) (i : Nat) : List Line → List String
  | [] => []
  | line :: rest =>
    let t := pyStrip line.text
    (if t ≠ "" then [if i < n - 1 then t ++ "  " else t] else [])
      ++ preserveParts n (i + 1) rest

/-- `Paragraph.to_markdown()`. -/
def paragraphToMarkdown (lines : List Line) (text_flow : Option TextFlow)
    (preserve_line_breaks : Bool) : String :=
  if paragraphIsEmpty lines then ""
  else if preserve_line_breaks then
    pyJoin "\n" (preserveParts lines.length 0 lines) ++ "\n"
  else
    let c := pyStrip (paragraphContent lines)
    match text_flow with
    | some tf => if tf.indentation > 5 then "    " ++ c ++ "\n" else c ++ "\n"
    | none => c ++ "\n"

/-- `Block.to_markdown()` dispatched over the variants. -/
def Block.toMarkdown : Block → String
  | .heading level content _ _ => ⟨List.replicate level '#'⟩ ++ " " ++ pyStrip content
  | .textBlock content _ => pyStrip content
  | .paragraph lines tf _ _ plb => paragraphToMarkdown lines tf plb
  | .listB lb => lb.toMarkdown
  | .codeB cb => cb.toMarkdown

/-- Is the block a `Heading` (`isinstance(block, Heading)`)? -/
def Block.isHeading : Block → Bool
  | .heading _ _ _ _ => true
  | _ => false

/-- The construction-time validation of the block variants
(`__post_init__` checks, which raise `ValueError` otherwise): every
Python-constructible block satisfies this. -/
def Block.wf : Block → Prop
  | .heading level content _ _ => 1 ≤ level ∧ level ≤ 6 ∧ pyStrip content ≠ ""
  | .textBlock _ _ => True
  | .paragraph _ _ _ _ _ => True
  | .listB lb => ∀ i ∈ lb.items, i.wf
  | .codeB _ => True

/-- `Document`: title, block list, metadata. -/
structure Document where
  title : Option String := none
  blocks : List Block := []
  metadata : List (String × String) := []

/-- Python truthiness of `self.title` (`None` and `""` are falsy). -/
def titleTruthy : Option String → Bool
  | none => false
  | some t => t ≠ ""

/-- The body of the `for block in self.blocks` loop of
`Document.to_markdown`: append the rendered block (with trailing
newlines removed) when it is non-empty and not whitespace-only, plus a
blank line after headings. -/
def markdownPartsStep (ps : List String) (b : Block) : List String :=
  let mc := b.toMarkdown
  if mc ≠ "" then
    let c := rstripNl mc
    if pyStrip c ≠ "" then
      ps ++ [c] ++ (if b.isHeading then [""] else [])
    else ps
  else ps

/-- `Document.to_markdown()`: optional title part, then the block loop
appending each non-blank rendered block (trailing newlines removed) and
a blank line after each heading, finally joined by newlines and
right-stripped. -/
def Document.toMarkdown (d : Document) : String :=
  let parts0 : List String :=
    if titleTruthy d.title then ["# " ++ d.title.getD "", ""] else []
  pyRstrip (pyJoin "\n" (d.blocks.foldl markdownPartsStep parts0))

/-- `MarkdownFormatter.format_document` on an actual `Document` simply
delegates to `Document.to_markdown` (the `if not document` guard is
false for every `Document` instance, since `Document` defines neither
`__bool__` nor `__len__`). -/
def formatDocument (d : Document) : String := d.toMarkdown

/-! ## List detector (`domain/services/list_detector.py`)

The detector matches a handful of fixed regular expressions against the
start of each line.  Line texts in this pipeline never contain a newline
character (they come from `LTTextLine.get_text().strip()` or from
splitting block content on newlines), so each pattern is embedded as the
deterministic parser it denotes on newline-free input. -/

/-- Configuration of `ListDetector.__init__` (defaults 5.0 / 3.0 / 3). -/
structure ListDetectorConfig where
  indentation_threshold : ℚ := 5
  continuation_indent_threshold : ℚ := 3
  max_nesting_level : Nat := 3

/-- The default-constructed `ListDetector()`. -/
def defaultListConfig : ListDetectorConfig := {}

/-- The bullet marker characters, in the order the source lists them. -/
def bulletChars : List Char :=
  ['•', '◦', '▪', '▫', '■', '□', '○', '●', '-', '*', '+']

/-- Does `^(\s*)(m)\s+(.*)$` match `text` for the bullet character `m`?
(Leading whitespace, the marker, at least one whitespace, then anything.) -/
def bulletMatch (m : Char) (text : List Char) : Bool :=
  match text.dropWhile pyIsSpace with
  | c :: d :: _ => c = m && pyIsSpace d
  | _ => false

/-- Match `^(\s*)(\d+)(\.|\))\s+(.*)$`, returning the digit group and the
suffix character. -/
def numericMatch (text : List Char) : Option (String × Char) :=
  let rest := text.dropWhile pyIsSpace
  let digits := rest.takeWhile Char.isDigit
  if digits = [] then none
  else
    match rest.drop digits.length with
    | c :: d :: _ =>
      if (c = '.' || c = ')') && pyIsSpace d then some (⟨digits⟩, c) else none
    | _ => none

/-- Match `^(\s*)([a-zA-Z])(\.|\))\s+(.*)$`, returning the letter and the
suffix character. -/
def alphaMatch (text : List Char) : Option (String × Char) :=
  match text.dropWhile pyIsSpace with
  | c :: s :: d :: _ =>
    if c.isAlpha && (s = '.' || s = ')') && pyIsSpace d then some (⟨[c]⟩, s) else none
  | _ => none

/-- The roman-numeral alternatives in the order of the source's
alternation (lowercase `i..x` first, then uppercase). -/
def romanAlternatives : List String :=
  ["i", "ii", "iii", "iv", "v", "vi", "vii", "viii", "ix", "x",
   "I", "II", "III", "IV", "V", "VI", "VII", "VIII", "IX", "X"]

/-- Match the roman-numeral pattern
`^(\s*)(i|ii|…|x|I|…|X)(\.|\))\s+(.*)$`; Python's ordered alternation
picks the first alternative that lets the rest of the pattern match. -/
def romanMatch (text : List Char) : Option (String × Char) :=
  let rest := text.dropWhile pyIsSpace
  romanAlternatives.findSome? fun r =>
    if r.data.isPrefixOf rest then
      match rest.drop r.length with
      | s :: d :: _ =>
        if (s = '.' || s = ')') && pyIsSpace d then some (r, s) else none
      | _ => none
    else none

/-- After a parenthetical symbol: require `)` followed by at least one
whitespace character (`\)\s+(.*)$`). -/
def parenAfterOk (l : List Char) : Bool :=
  match l with
  | ')' :: d :: _ => pyIsSpace d
  | _ => false

/-- Match `^(\s*)\((\d+|[a-zA-Z]|i|…|x|I|…|X)\)\s+(.*)$`, returning the
symbol inside the parentheses (alternation tried in source order). -/
def parenMatch (text : List Char) : Option String :=
  match text.dropWhile pyIsSpace with
  | '(' :: inner =>
    let digits := inner.takeWhile Char.isDigit
    if digits ≠ [] then
      -- `\d+` is committed once the first character is a digit
      if parenAfterOk (inner.drop digits.length) then some ⟨digits⟩ else none
    else
      match inner with
      | c :: rest' =>
        if c.isAlpha && parenAfterOk rest' then some ⟨[c]⟩
        else
          romanAlternatives.findSome? fun r =>
            if r.data.isPrefixOf inner && parenAfterOk (inner.drop r.length) then
              some r
            else none
      | [] => none
  | _ => none

/-- `ListDetector.detect_list_marker(line)`: try the bullet patterns in
order, then numeric, alphabetic, roman and parenthetical ordered
patterns. -/
def detectListMarker (line : Line) : Option ListMarker :=
  let text := line.text
  if pyStrip text = "" then none
  else
    match bulletChars.findSome? fun m =>
        if bulletMatch m text.data then some m else none with
    | some m => some ⟨ListType.unordered, ⟨[m]⟩, "", " "⟩
    | none =>
      match numericMatch text.data with
      | some (sym, suf) => some ⟨ListType.ordered, sym, "", ⟨[suf, ' ']⟩⟩
      | none =>
        match alphaMatch text.data with
        | some (sym, suf) => some ⟨ListType.ordered, sym, "", ⟨[suf, ' ']⟩⟩
        | none =>
          match romanMatch text.data with
          | some (sym, suf) => some ⟨ListType.ordered, sym, "", ⟨[suf, ' ']⟩⟩
          | none =>
            match parenMatch text.data with
            | some sym => some ⟨ListType.ordered, sym, "(", ") "⟩
            | none => none

/-- `ListDetector._calculate_nesting_level(line, base_x_position)`. -/
def calcNestingLevel (cfg : ListDetectorConfig) (line : Line)
    (baseX : Option ℚ) : Nat :=
  match baseX with
  | none => 0
  | some base =>
    let xdiff := line.x_position - base
    if xdiff < cfg.indentation_threshold then 0
    else if xdiff < cfg.indentation_threshold * (5 / 2) then 1
    else if xdiff < cfg.indentation_threshold * 4 then 2
    else 3

/-- `ListDetector._extract_content_from_line(line, marker)`: strip the
line, remove the marker via the pattern
`^(\s*)<prefix><symbol><suffix.rstrip()>\s*(.*)` and strip the captured
content, with the source's two fallbacks. -/
def extractContentFromLine (line : Line) (marker : ListMarker) : String :=
  let text := pyStrip line.text
  let lit := (marker.markerPre ++ marker.symbol ++ pyRstrip marker.markerSuf).data
  let rest := text.data.dropWhile pyIsSpace
  if lit.isPrefixOf rest then
    pyStrip ⟨(rest.drop lit.length).dropWhile pyIsSpace⟩
  else if pyStartsWith text marker.as_string then
    pyStrip ⟨text.data.drop marker.as_string.length⟩
  else
    match pySplit text with
    | w :: ws =>
      if w = marker.symbol ++ pyRstrip marker.markerSuf then
        pyJoin " " ws
      else pyStrip text
    | [] => pyStrip text

/-- `ListDetector._is_continuation_line(line, current_item)`. -/
def isContinuationLine (cfg : ListDetectorConfig) (line : Line)
    (cur : ListItem) : Bool :=
  match cur.lines with
  | [] => false
  | first :: _ =>
    match detectListMarker first with
    | none => false
    | some m =>
      let markerLength : ℚ := m.as_string.length
      let expected := first.x_position + markerLength * 2
      let xdiff := |line.x_position - expected|
      line.x_position > first.x_position
        && xdiff ≤ cfg.continuation_indent_threshold * 3

/-- Loop body of `detect_list_items_from_lines`: state is (finished
items, current item, base x-position). -/
def detectListItemsGo (cfg : ListDetectorConfig)
    (acc : List ListItem) (cur : Option ListItem) (baseX : Option ℚ) :
    List Line → List ListItem
  | [] =>
    match cur with
    | some c => acc ++ [c]
    | none => acc
  | line :: rest =>
    match detectListMarker line with
    | some marker =>
      let acc' := match cur with
        | some c => acc ++ [c]
        | none => acc
      let level := calcNestingLevel cfg line baseX
      let baseX' := match baseX with
        | none => some line.x_position
        | some b => some b
      let content0 := extractContentFromLine line marker
      let content := if pyStrip content0 = "" then "[empty]" else content0
      let item : ListItem :=
        ⟨content, min level cfg.max_nesting_level, marker, [line]⟩
      detectListItemsGo cfg acc' (some item) baseX' rest
    | none =>
      match cur with
      | some c =>
        if isContinuationLine cfg line c then
          let cont := pyStrip line.text
          let c' : ListItem :=
            if cont ≠ "" then
              ⟨c.content ++ " " ++ cont, c.level, c.marker, c.lines ++ [line]⟩
            else c
          detectListItemsGo cfg acc (some c') baseX rest
        else
          detectListItemsGo cfg (acc ++ [c]) none baseX rest
      | none => detectListItemsGo cfg acc none baseX rest

/-- `ListDetector.detect_list_items_from_lines(lines)`. -/
def detectListItemsFromLines (cfg : ListDetectorConfig)
    (lines : List Line) : List ListItem :=
  detectListItemsGo cfg [] none none lines

/-- `ListDetector._should_start_new_block(current_block, item)`. -/
def shouldStartNewBlock (cur : ListBlock) (item : ListItem) : Bool :=
  if cur.is_empty then true
  else if cur.list_type ≠ item.marker.marker_type then true
  else
    match cur.items.getLast? with
    | some last => |(item.level : ℤ) - (last.level : ℤ)| > 2
    | none => false

/-- Loop body of `group_list_items_into_blocks`; `add_item` may raise
(`Except.error`), which propagates out of the grouping. -/
def groupGo (acc : List ListBlock) (cur : Option ListBlock) :
    List ListItem → Except String (List ListBlock)
  | [] =>
    .ok (match cur with
      | some b => if !b.is_empty then acc ++ [b] else acc
      | none => acc)
  | item :: rest =>
    let startNew := match cur with
      | none => true
      | some b =>
        b.list_type ≠ item.marker.marker_type || shouldStartNewBlock b item
    let saved := if startNew then
        (match cur with
         | some b => if !b.is_empty then acc ++ [b] else acc
         | none => acc)
      else acc
    let work := if startNew then ListBlock.mk item.marker.marker_type [] .nil
      -- when `startNew` is false, `cur` is necessarily `some`
      else cur.getD (ListBlock.mk item.marker.marker_type [] .nil)
    match work.add_item item with
    | (.error e, _) => .error e
    | (.ok _, b') => groupGo saved (some b') rest

/-- `ListDetector.group_list_items_into_blocks(list_items)`. -/
def groupListItemsIntoBlocks (items : List ListItem) :
    Except String (List ListBlock) :=
  groupGo [] none items

/-! ## Heading detector (`domain/services/heading_detector.py`) -/

/-- Python `str.isupper()`: at least one cased character and no
lowercase cased character (ASCII model: cased = letter). -/
def pyIsUpper (s : String) : Bool :=
  s.data.any Char.isAlpha && !(s.data.any Char.isLower)

/-- `block.font_size` where present (`None`-valued elsewhere). -/
def blockFontSize : Block → Option ℚ
  | .heading _ _ fs _ => fs
  | .textBlock _ fs => fs
  | .paragraph _ _ fs _ _ => fs
  | _ => none

/-- Python truthiness of an optional float (`None` and `0.0` falsy). -/
def fontTruthy : Option ℚ → Bool
  | none => false
  | some s => s ≠ 0

/-- `block.content` for the text-bearing variants (`Paragraph.content`
is the derived line join). -/
def getBlockContent : Block → String
  | .heading _ c _ _ => c
  | .textBlock c _ => c
  | .paragraph lines _ _ _ _ => paragraphContent lines
  | _ => ""

/-- `getattr(block, 'is_bold', False)` (only `Heading` carries the
attribute in the model; `TextBlock`/`Paragraph` have none). -/
def isLikelyBold : Block → Bool
  | .heading _ _ _ ib => ib
  | _ => false

/-- The loop guard of `detect_headings_in_document`:
`(isinstance(block, TextBlock) or hasattr(block, 'lines')) and
hasattr(block, 'font_size') and block.font_size`.  A `CodeBlock` has
`lines` but no `font_size` attribute, so it is never classified. -/
def isClassifiable : Block → Bool
  | .textBlock _ fs => fontTruthy fs
  | .paragraph _ _ fs _ _ => fontTruthy fs
  | _ => false

/-- The font sizes of the text elements that
`_extract_text_elements_from_blocks` builds (only their `font_size`
field is ever consumed, by the baseline computation). -/
def extractFontSizes (blocks : List Block) : List ℚ :=
  blocks.filterMap (fun b => if isClassifiable b then blockFontSize b else none)

/-- Insertion step for ascending sort. -/
def insertSorted (x : ℚ) : List ℚ → List ℚ
  | [] => [x]
  | y :: ys => if x ≤ y then x :: y :: ys else y :: insertSorted x ys

/-- Python `sorted` on a list of floats (ascending). -/
def sortQ (l : List ℚ) : List ℚ := l.foldr insertSorted []

/-- `statistics.mode` under Python ≥ 3.8: the most frequent value, ties
broken by first appearance; only raises on empty input (the argument
here is never empty at the call site).  Returns `0` on `[]`. -/
def firstMode (l : List ℚ) : ℚ :=
  (l.foldl (fun best x =>
    let c := l.count x
    if c > best.2 then (x, c) else best) ((0 : ℚ), 0)).1

/-- `HeadingDetector._calculate_baseline_font_size`, on the extracted
font sizes: interquartile outlier filtering when more than four samples,
then the mode.  (Under Python ≥ 3.8 `statistics.mode` does not raise on
multimodal data, so the `except StatisticsError` fallbacks of the source
are dead code for the non-empty lists reaching it.) -/
def calculateBaselineFontSize (sizes : List ℚ) : ℚ :=
  if sizes = [] then 12
  else
    let sorted := sortQ sizes
    let q1i := sorted.length / 4
    let q3i := 3 * sorted.length / 4
    let filtered :=
      if sorted.length > 4 then
        let q1 := sorted.getD q1i 0
        let q3 := sorted.getD q3i 0
        let iqr := q3 - q1
        let lowerBound := q1 - (3 / 2) * iqr
        let upperBound := q3 + (3 / 2) * iqr
        sizes.filter (fun s => lowerBound ≤ s && s ≤ upperBound)
      else sizes
    let filtered := if filtered = [] then sizes else filtered
    firstMode filtered

/-- The `contact_indicators` list of `_is_contact_information`. -/
def contactIndicators : List String :=
  ["@", "www.", "http", "(", "-", "linkedin", "github", "portfolio"]

/-- `HeadingDetector._is_contact_information(content)`: at least two
indicator substrings present in the lowered, stripped content. -/
def isContactInfo (content : String) : Bool :=
  let c := pyStrip (pyLower content)
  (contactIndicators.filter (fun ind => pyContains c ind)).length ≥ 2

/-- The `primary_sections` vocabulary of
`_detect_resume_section_header`. -/
def primarySections : List String :=
  ["PROFESSIONAL SUMMARY", "EXECUTIVE SUMMARY", "SUMMARY", "OBJECTIVE",
   "CAREER OBJECTIVE", "PROFESSIONAL OBJECTIVE",
   "EXPERIENCE", "WORK EXPERIENCE", "PROFESSIONAL EXPERIENCE",
   "CAREER EXPERIENCE", "EMPLOYMENT HISTORY", "WORK HISTORY",
   "EDUCATION", "EDUCATIONAL BACKGROUND", "ACADEMIC BACKGROUND",
   "SKILLS", "TECHNICAL SKILLS", "CORE COMPETENCIES", "KEY SKILLS",
   "CERTIFICATIONS", "CERTIFICATES", "PROFESSIONAL CERTIFICATIONS",
   "AWARDS", "HONORS", "ACHIEVEMENTS", "ACCOMPLISHMENTS",
   "PROJECTS", "KEY PROJECTS", "NOTABLE PROJECTS",
   "PUBLICATIONS", "RESEARCH", "PUBLICATIONS AND RESEARCH",
   "REFERENCES", "PROFESSIONAL REFERENCES"]

/-- The `single_word_sections` vocabulary. -/
def singleWordSections : List String :=
  ["SUMMARY", "OBJECTIVE", "EXPERIENCE", "EDUCATION", "SKILLS",
   "CERTIFICATIONS", "AWARDS", "PROJECTS", "PUBLICATIONS", "REFERENCES"]

/-- `HeadingDetector._detect_resume_section_header(content)`.  (The
partial-match pass iterates a Python set; since every match returns the
same level, set iteration order is immaterial and `any` is faithful.) -/
def detectResumeSectionHeader (content : String) : Option Nat :=
  let c := pyUpper (pyStrip content)
  if primarySections.contains c then some 2
  else if singleWordSections.contains c then some 2
  else if primarySections.any (fun s => pyContains c s && c.length ≤ s.length + 20) then
    some 2
  else none

/-- The `name_indicators` list of `_is_likely_name_or_title`. -/
def nameIndicators : List String := ["jr", "sr", "iii", "phd", "md", "pe", "cpa"]

/-- The `business_words` list of `_is_likely_name_or_title`. -/
def businessWords : List String :=
  ["company", "corporation", "manager", "director", "engineer"]

/-- `HeadingDetector._is_likely_name_or_title(content)`. -/
def isLikelyNameOrTitle (content : String) : Bool :=
  let c := pyStrip content
  let words := pySplit c
  if 2 ≤ words.length && words.length ≤ 4 && c.length ≤ 50
      && words.all (fun w =>
           match w.data with
           | ch :: _ => ch.isUpper
           | [] => true)
      && !(c.data.any Char.isDigit)
      && !(pyEndsWithAny c ['.', '!', '?', ':', ';']) then
    let cl := pyLower c
    if nameIndicators.any (fun i => pyContains cl i) then true
    else if businessWords.any (fun w => pyContains cl w) then false
    else if 2 ≤ words.length && words.length ≤ 3 then true
    else false
  else false

/-- The `major_keywords` of `_is_major_section_keyword`. -/
def majorKeywords : List String :=
  ["experience", "education", "skills", "summary", "objective",
   "certifications", "awards", "projects", "publications"]

/-- `HeadingDetector._is_major_section_keyword(content)`. -/
def isMajorSectionKeyword (content : String) : Bool :=
  let cl := pyLower content
  majorKeywords.any (fun k => pyContains cl k)

/-- `HeadingDetector._determine_heading_level(block, baseline_font_size)`.
(The division `font_size / baseline` is exact in `ℚ`; the baseline is
never zero for real font data.) -/
def determineHeadingLevel (b : Block) (baseline : ℚ) : Option Nat :=
  if !fontTruthy (blockFontSize b) then none
  else
    let content := pyStrip (getBlockContent b)
    let n := content.length
    if n < 1 || n > 300 then none
    else if isContactInfo content then none
    else
      match detectResumeSectionHeader content with
      | some lvl => some lvl
      | none =>
        if isLikelyNameOrTitle content then some 1
        else
          let fs := (blockFontSize b).getD 0
          let sizeRel : ℚ := fs / baseline
          let styleBonus : ℚ :=
            (if isLikelyBold b then 1 / 2 else 0)
              + (if pyIsUpper content && (pySplit content).length ≤ 4 then 1 else 0)
          let headingScore : ℚ :=
            styleBonus + (if sizeRel > 21 / 20 then min ((sizeRel - 1) * 2) 1 else 0)
          if headingScore ≥ 3 / 2 then
            if isMajorSectionKeyword content then some 2
            else if sizeRel ≥ 13 / 10 then some 3
            else if styleBonus ≥ 1 then some 4
            else some 5
          else if headingScore ≥ 4 / 5 && sizeRel > 11 / 10 then some 6
          else none

/-! ## Language detector (`domain/services/language_detector.py`)

`get_confidence_score` consumes each compiled syntax pattern only
through `pattern.search(text)` (a Boolean).  The patterns are embedded
as regular-expression terms evaluated by Brzozowski derivatives; the
`re.IGNORECASE` flag is folded into the character predicates, and
`re.MULTILINE` is irrelevant because no pattern contains an anchor. -/

/-- Regular expressions over characters, with character classes as
predicates. -/
inductive RE where
  | emp
  | eps
  | cls (p : Char → Bool)
  | cat (a b : RE)
  | alt (a b : RE)
  | star (a : RE)

/-- Does the regex accept the empty string? -/
def RE.nullable : RE → Bool
  | .emp => false
  | .eps => true
  | .cls _ => false
  | .cat a b => a.nullable && b.nullable
  | .alt a b => a.nullable || b.nullable
  | .star _ => true

/-- Brzozowski derivative by one character. -/
def RE.deriv : RE → Char → RE
  | .emp, _ => .emp
  | .eps, _ => .emp
  | .cls p, c => if p c then .eps else .emp
  | .cat a b, c =>
    if a.nullable then .alt (.cat (a.deriv c) b) (b.deriv c)
    else .cat (a.deriv c) b
  | .alt a b, c => .alt (a.deriv c) (b.deriv c)
  | .star a, c => .cat (a.deriv c) (.star a)

/-- Does the regex match some prefix of the text? -/
def reMatchHere : RE → List Char → Bool
  | r, [] => r.nullable
  | r, c :: cs => r.nullable || reMatchHere (r.deriv c) cs

/-- Python `compiled_pattern.search(text) is not None`: does the regex
match somewhere inside the text? -/
def reSearch (r : RE) : List Char → Bool
  | [] => r.nullable
  | c :: cs => reMatchHere r (c :: cs) || reSearch r cs

/-- A literal character under `re.IGNORECASE`. -/
def lit (c : Char) : RE := .cls (fun d => d.toLower = c.toLower)

/-- A literal string under `re.IGNORECASE`. -/
def litStr (s : String) : RE := s.data.foldr (fun c r => .cat (lit c) r) .eps

/-- Concatenation of a pattern sequence. -/
def rcat (l : List RE) : RE := l.foldr .cat .eps

/-- Ordered alternation `(a|b|…)`. -/
def altList : List RE → RE
  | [] => .emp
  | [x] => x
  | x :: xs => .alt x (altList xs)

/-- `r+`. -/
def rplus (r : RE) : RE := .cat r (.star r)

/-- `r?`. -/
def ropt (r : RE) : RE := .alt r .eps

/-- `\w`: word constituent. -/
def isWordChar (c : Char) : Bool := c.isAlphanum || c = '_'

/-- `\s` class. -/
def wsC : RE := .cls pyIsSpace

/-- `\s*`. -/
def wsStar : RE := .star wsC

/-- `\s+`. -/
def wsPlus : RE := rplus wsC

/-- `\w` class. -/
def wordC : RE := .cls isWordChar

/-- `\w+`. -/
def wPlus : RE := rplus wordC

/-- `\d+`. -/
def dPlus : RE := rplus (.cls Char.isDigit)

/-- `.` (anything but a newline). -/
def dotC : RE := .cls (fun c => c ≠ '\n')

/-- `["\']`: either quote character. -/
def quoteC : RE := .cls (fun c => c = '"' || c = '\'')

/-- Word-character test on an optional character (out of bounds counts
as a non-word position). -/
def wcOpt : Option Char → Bool
  | some c => isWordChar c
  | none => false

/-- Does `\b<kw>\b` match at the current position (`prev` is the
character immediately before the position)? -/
def kwMatchesAt (kw : List Char) (prev : Option Char) (l : List Char) : Bool :=
  kw.isPrefixOf l && (wcOpt prev != wcOpt kw.head?)
    && (wcOpt kw.getLast? != wcOpt (l.drop kw.length).head?)

/-- Scan for `\b<kw>\b` at every position of the text. -/
def kwSearchGo (kw : List Char) : Option Char → List Char → Bool
  | prev, [] => kwMatchesAt kw prev []
  | prev, c :: cs => kwMatchesAt kw prev (c :: cs) || kwSearchGo kw (some c) cs

/-- Python `re.search(rf'\b{re.escape(kw)}\b', text) is not None`. -/
def kwSearch (kw : String) (text : String) : Bool :=
  kwSearchGo kw.data none text.data

/-- `LanguagePattern`: keyword vocabulary, compiled syntax patterns,
distinctive characters, overall weight. -/
structure LanguagePattern where
  keywords : List String
  synPatterns : List RE
  distinctiveChars : List Char
  weight : ℚ := 1

/-- The `CodeLanguage.PYTHON` pattern set. -/
def pythonPattern : LanguagePattern where
  keywords :=
    ["def", "class", "import", "from", "if", "elif", "else",
     "for", "while", "try", "except", "finally", "with",
     "lambda", "yield", "return", "pass", "break", "continue",
     "and", "or", "not", "in", "is", "True", "False", "None",
     "__init__", "__main__", "self", "print"]
  synPatterns :=
    [rcat [litStr "def", wsPlus, wPlus, wsStar, lit '('],
     rcat [litStr "class", wsPlus, wPlus, wsStar, .cls (fun c => c = ':' || c = '(')],
     rcat [litStr "import", wsPlus, wPlus],
     rcat [litStr "from", wsPlus, wPlus, wsPlus, litStr "import"],
     rcat [litStr "if", wsPlus, litStr "__name__", wsStar, litStr "==", wsStar,
           quoteC, litStr "__main__", quoteC],
     rcat [lit ':', wsStar, lit '\n', wsPlus]]
  distinctiveChars := [':', '#']

/-- The `CodeLanguage.JAVASCRIPT` pattern set. -/
def javascriptPattern : LanguagePattern where
  keywords :=
    ["function", "var", "let", "const", "if", "else", "for",
     "while", "do", "switch", "case", "default", "break",
     "continue", "return", "try", "catch", "finally", "throw",
     "new", "this", "prototype", "typeof", "instanceof",
     "console.log", "document", "window", "null", "undefined",
     "true", "false"]
  synPatterns :=
    [rcat [litStr "function", wsPlus, .star wordC, wsStar, lit '('],
     rcat [wPlus, wsStar, litStr "=>", wsStar, .cls (fun c => c = '\x7b' || isWordChar c)],
     rcat [altList [litStr "var", litStr "let", litStr "const"], wsPlus, wPlus],
     rcat [litStr "console", lit '.', litStr "log", wsStar, lit '('],
     rcat [litStr "document", lit '.', wPlus],
     rcat [lit '\x7b', wsStar,
           rplus (.cls (fun c => isWordChar c || pyIsSpace c || c = ','
             || c = ':' || c = '"' || c = '\'')),
           wsStar, lit '\x7d']]
  distinctiveChars := ['\x7b', '\x7d', ';']

/-- The `CodeLanguage.JAVA` pattern set. -/
def javaPattern : LanguagePattern where
  keywords :=
    ["public", "private", "protected", "static", "final",
     "class", "interface", "extends", "implements", "abstract",
     "void", "int", "String", "boolean", "double", "float",
     "char", "byte", "short", "long", "if", "else", "for",
     "while", "do", "switch", "case", "default", "break",
     "continue", "return", "try", "catch", "finally", "throw",
     "throws", "new", "this", "super", "null", "true", "false",
     "System.out.println"]
  synPatterns :=
    [rcat [litStr "public", wsPlus, ropt (rcat [litStr "static", wsPlus]),
           litStr "void", wsPlus, litStr "main"],
     rcat [litStr "public", wsPlus, litStr "class", wsPlus, wPlus],
     rcat [litStr "System", lit '.', litStr "out", lit '.', litStr "print"],
     rcat [litStr "String", lit '[', lit ']', wsPlus, wPlus],
     rcat [lit '@', wPlus]]
  distinctiveChars := ['\x7b', '\x7d', ';']

/-- The `CodeLanguage.CPP` pattern set. -/
def cppPattern : LanguagePattern where
  keywords :=
    ["include", "namespace", "using", "class", "struct",
     "public", "private", "protected", "virtual", "static",
     "const", "int", "char", "float", "double", "bool",
     "void", "auto", "if", "else", "for", "while",
     "do", "switch", "case", "default", "break", "continue",
     "return", "try", "catch", "throw", "new", "delete",
     "this", "nullptr", "true", "false", "cout", "cin",
     "endl", "std", "vector", "string", "printf"]
  synPatterns :=
    [rcat [lit '#', litStr "include", wsStar, lit '<',
           rplus (.cls (fun c => isWordChar c || c = '.')), lit '>'],
     rcat [litStr "std", lit ':', lit ':', wPlus],
     rcat [wPlus, wsStar, rplus (lit '*'), wsStar, wPlus],
     rcat [litStr "cout", wsStar, lit '<', lit '<'],
     rcat [litStr "cin", wsStar, lit '>', lit '>'],
     rcat [lit ':', lit ':', wPlus]]
  distinctiveChars := ['*', '&', '<', '>', '#']

/-- The `CodeLanguage.SQL` pattern set. -/
def sqlPattern : LanguagePattern where
  keywords :=
    ["SELECT", "FROM", "WHERE", "INSERT", "UPDATE", "DELETE",
     "CREATE", "DROP", "ALTER", "TABLE", "INDEX", "VIEW",
     "JOIN", "INNER", "LEFT", "RIGHT", "OUTER", "ON",
     "GROUP", "BY", "ORDER", "HAVING", "UNION", "ALL",
     "DISTINCT", "COUNT", "SUM", "AVG", "MIN", "MAX",
     "AND", "OR", "NOT", "NULL", "IS", "IN", "LIKE",
     "BETWEEN", "EXISTS", "CASE", "WHEN", "THEN", "ELSE", "END"]
  synPatterns :=
    [rcat [litStr "SELECT", wsPlus,
           rplus (.cls (fun c => isWordChar c || pyIsSpace c || c = ',' || c = '*')),
           wsPlus, litStr "FROM"],
     rcat [litStr "INSERT", wsPlus, litStr "INTO", wsPlus, wPlus],
     rcat [litStr "UPDATE", wsPlus, wPlus, wsPlus, litStr "SET"],
     rcat [litStr "DELETE", wsPlus, litStr "FROM", wsPlus, wPlus],
     rcat [litStr "CREATE", wsPlus, litStr "TABLE", wsPlus, wPlus],
     rcat [wPlus, wsStar, lit '=', wsStar, quoteC,
           .star (.cls (fun c => c ≠ '\'' && c ≠ '"')), quoteC]]
  distinctiveChars := [';']

/-- The `CodeLanguage.HTML` pattern set. -/
def htmlPattern : LanguagePattern where
  keywords :=
    ["html", "head", "body", "title", "meta", "link",
     "script", "style", "div", "span", "p", "h1", "h2",
     "h3", "h4", "h5", "h6", "a", "img", "ul", "ol",
     "li", "table", "tr", "td", "th", "form", "input",
     "button", "select", "option", "textarea", "DOCTYPE"]
  synPatterns :=
    [rcat [lit '<', wsStar, wPlus, .star (.cls (fun c => c ≠ '>')), lit '>'],
     rcat [lit '<', wsStar, lit '/', wsStar, wPlus, wsStar, lit '>'],
     rcat [lit '<', lit '!', litStr "DOCTYPE", wsPlus, litStr "html", lit '>'],
     rcat [wPlus, wsStar, lit '=', wsStar, quoteC,
           .star (.cls (fun c => c ≠ '"' && c ≠ '\'')), quoteC],
     rcat [litStr "<!--", .star dotC, litStr "-->"]]
  distinctiveChars := ['<', '>', '/', '=', '"', '\'']

/-- The `CodeLanguage.JSON` pattern set. -/
def jsonPattern : LanguagePattern where
  keywords := ["true", "false", "null"]
  synPatterns :=
    [rcat [lit '\x7b', wsStar, lit '"',
           rplus (.cls (fun c => isWordChar c || pyIsSpace c)), lit '"',
           wsStar, lit ':', wsStar,
           .cls (fun c => c = '"' || isWordChar c || c = '[' || c = '\x7b')],
     rcat [lit '"', wPlus, lit '"', wsStar, lit ':', wsStar, lit '\x7b'],
     rcat [lit '"', wPlus, lit '"', wsStar, lit ':', wsStar, lit '['],
     rcat [lit '"', wPlus, lit '"', wsStar, lit ':', wsStar,
           altList [litStr "true", litStr "false", litStr "null", dPlus]],
     rcat [lit '[', wsStar, lit '\x7b']]
  distinctiveChars := ['\x7b', '\x7d', '[', ']', ':', ',', '"']

/-- `LanguageDetector._initialize_language_patterns`: the pattern table
(`UNKNOWN` has no entry in the dict). -/
def languagePatterns : CodeLanguage → Option LanguagePattern
  | .python => some pythonPattern
  | .javascript => some javascriptPattern
  | .java => some javaPattern
  | .cpp => some cppPattern
  | .sql => some sqlPattern
  | .html => some htmlPattern
  | .json => some jsonPattern
  | .unknown => none

/-- Number of keywords found by `\b`-bounded search in the lowered
content (the keyword-confidence numerator of `get_confidence_score`). -/
def kwMatchCount (p : LanguagePattern) (text : String) : Nat :=
  (p.keywords.filter (fun k => kwSearch (pyLower k) (pyLower text))).length

/-- Number of syntax patterns with a search hit in the content (the
syntax-confidence numerator of `get_confidence_score`). -/
def synMatchCount (p : LanguagePattern) (text : String) : Nat :=
  (p.synPatterns.filter (fun r => reSearch r text.data)).length

/-- Total occurrence count of the distinctive characters in the content
(the character score of `get_confidence_score`). -/
def charOccCount (p : LanguagePattern) (text : String) : Nat :=
  p.distinctiveChars.foldl (fun a c => a + pyCountChar text c) 0

/-- `LanguageDetector.get_confidence_score(code_content, language)`. -/
def getConfidenceScore (text : String) (lang : CodeLanguage) : ℚ :=
  if lang = CodeLanguage.unknown || pyStrip text = "" then 0
  else
    match languagePatterns lang with
    | none => 0
    | some p =>
      let keywordConfidence : ℚ :=
        if p.keywords.length > 0 then (kwMatchCount p text : ℚ) / p.keywords.length
        else 0
      let syntaxConfidence : ℚ :=
        if p.synPatterns.length > 0 then (synMatchCount p text : ℚ) / p.synPatterns.length
        else 0
      let charConfidence : ℚ :=
        if p.distinctiveChars ≠ [] then
          min ((charOccCount p text : ℚ) / text.length) 1
        else 0
      let bestIndividual := max keywordConfidence (max syntaxConfidence charConfidence)
      let weightedAverage :=
        keywordConfidence * (1 / 2) + syntaxConfidence * (3 / 10)
          + charConfidence * (1 / 5)
      min ((max (bestIndividual * (7 / 10)) weightedAverage) * p.weight) 1

/-! ## CLI orchestration (`cli/main.py`, `_process_pdf_file`)

The pipeline stages are injected services; the skeleton below is the
orchestration of steps 3–7 of `_process_pdf_file` with the stage bodies
as explicit function parameters, and the parser's
`extract_line_elements` result as an `Except` (an exception during line
extraction is the `error` case). -/

/-- The injected pipeline stages of `PdfToMarkdownCli`.  `listStage` and
`codeStage` stand for the whole of step 4 and step 5 respectively (item
detection, grouping, language analysis and block integration), applied
only when positioned lines are available. -/
structure PipelineStages where
  paragraphDetect : Document → Document
  listStage : Document → List Line → Document
  codeStage : Document → List Line → Document
  headingDetect : Document → Document
  format : Document → String

/-- Steps 3–7 of `PdfToMarkdownCli._process_pdf_file`: paragraph
detection, then line extraction guarded by `try/except` (an exception is
logged and the line list reset to `[]`), then list and code detection
only `if lines:`, then heading detection and formatting. -/
def processPdfFile (st : PipelineStages) (parsed : Document)
    (lineExtraction : Except String (List Line)) : Except String String :=
  let docWithParagraphs := st.paragraphDetect parsed
  let lines : List Line :=
    match lineExtraction with
    | .error _ => []
    | .ok ls => ls
  let d1 := if !lines.isEmpty then st.listStage docWithParagraphs lines
    else docWithParagraphs
  let d2 := if !lines.isEmpty then st.codeStage d1 lines else d1
  let docWithHeadings := st.headingDetect d2
  .ok (st.format docWithHeadings)

/-- The per-block body of the `detect_headings_in_document` loop:
convert to `Heading` when a level is detected, keep the block
otherwise. -/
def headingTransform (baseline : ℚ) (b : Block) : Block :=
  if isClassifiable b then
    match determineHeadingLevel b baseline with
    | some lvl => .heading lvl (getBlockContent b) (blockFontSize b) (isLikelyBold b)
    | none => b
  else b

/-- `HeadingDetector.detect_headings_in_document(document)`: early
return when there are no blocks or no sized text elements, otherwise a
new document whose blocks are classified against the baseline font
size. -/
def detectHeadingsInDocument (d : Document) : Document :=
  if d.blocks.isEmpty then d
  else
    let sizes := extractFontSizes d.blocks
    if sizes = [] then d
    else
      let baseline := calculateBaselineFontSize sizes
      ⟨d.title, d.blocks.map (headingTransform baseline), d.metadata⟩

/-! ## Specification-side renderer (§4.7 of the spec)

A second rendering definition following the specification's wording, to
be compared with the source-derived `Document.toMarkdown`: the title
part when a title is present, then each block's `to_markdown()` with
trailing newlines stripped before rejoining, skipping exactly the
blocks whose `to_markdown()` output is the empty string, one blank line
after every heading, final output right-stripped. -/

/-- Spec wording for the per-block part list: skip a block exactly when
its `to_markdown()` output is the empty string; otherwise append it with
trailing newlines stripped, and one blank line after a heading. -/
def specPartsStep (ps : List String) (b : Block) : List String :=
  let out := b.toMarkdown
  if out = "" then ps
  else ps ++ [rstripNl out] ++ (if b.isHeading then [""] else [])

/-- Spec wording for the whole render, parameterised by what "a title is
present" means. -/
def formatDocumentSpecOf (titlePresent : Bool) (d : Document) : String :=
  let parts0 : List String :=
    if titlePresent then ["# " ++ d.title.getD "", ""] else []
  pyRstrip (pyJoin "\n" (d.blocks.foldl specPartsStep parts0))

/-- The claim as stated: "a title is present" read as the title being
set (not `None`). -/
def formatDocumentSpecClaim (d : Document) : String :=
  formatDocumentSpecOf d.title.isSome d

/-- The amended claim: "a title is present" read as the title being a
non-empty string (Python truthiness, which is what the source tests). -/
def formatDocumentSpecAmended (d : Document) : String :=
  formatDocumentSpecOf (titleTruthy d.title) d

/-! ## Concrete inputs used by the claim theorems and witnesses -/

/-- An ordered marker with original symbol `"1"`. -/
def dupMarker : ListMarker := ⟨ListType.ordered, "1", "", ". "⟩

/-- A list item; two value-identical copies trigger the numbering slip. -/
def dupItem : ListItem := ⟨"foo", 0, dupMarker, []⟩

/-- An ordered `ListBlock` holding two value-identical items. -/
def dupOrderedBlock : ListBlock := .mk ListType.ordered [dupItem, dupItem] .nil

/-- Items carrying the original symbols `"1"`, `"5"`, `"2"` at level 0. -/
def symbolItems : List ListItem :=
  [⟨"alpha", 0, ⟨ListType.ordered, "1", "", ". "⟩, []⟩,
   ⟨"beta", 0, ⟨ListType.ordered, "5", "", ". "⟩, []⟩,
   ⟨"gamma", 0, ⟨ListType.ordered, "2", "", ". "⟩, []⟩]

/-- An ordered block over `symbolItems`. -/
def symbolBlock : ListBlock := .mk ListType.ordered symbolItems .nil

/-- First input line of end-to-end scenario 1. -/
def scenarioLine1 : Line := ⟨"1. First item", 700, 72, 12, none⟩

/-- Second input line of end-to-end scenario 1 (same x-position). -/
def scenarioLine2 : Line := ⟨"2. Second item", 685, 72, 12, none⟩

/-- The first detected item of scenario 1. -/
def scenarioItem1 : ListItem :=
  ⟨"First item", 0, ⟨ListType.ordered, "1", "", ". "⟩, [scenarioLine1]⟩

/-- The second detected item of scenario 1. -/
def scenarioItem2 : ListItem :=
  ⟨"Second item", 0, ⟨ListType.ordered, "2", "", ". "⟩, [scenarioLine2]⟩

/-- An empty ordered block (for the `add_item` witness). -/
def mismatchBlock : ListBlock := .mk ListType.ordered [] .nil

/-- An unordered level-0 item (mismatching `mismatchBlock`). -/
def mismatchItem : ListItem := ⟨"x", 0, ⟨ListType.unordered, "-", "", " "⟩, []⟩

/-- Upper line for the vertical-spacing evaluation: top at 100, height
10, so its bottom edge is at 90. -/
def upperLine : Line := ⟨"upper text", 100, 50, 10, none⟩

/-- Lower line: top at 80, height 20. -/
def lowerLine : Line := ⟨"lower text", 80, 50, 20, none⟩

/-- First code line of the whitespace-preservation scenario. -/
def codeLine1 : Line := ⟨"def f():", 100, 50, 12, none⟩

/-- Second, indented code line. -/
def codeLine2 : Line := ⟨"    return 1", 85, 50, 12, none⟩

/-- The code block built from the two lines. -/
def sampleCodeBlock : CodeBlock := ⟨[codeLine1, codeLine2], .unknown, none⟩

/-- A document whose sole block is four title-case words at baseline
font size: every hypothesis of the name/title claim holds, yet the
source classifies it as plain text. -/
def fourWordDoc : Document := ⟨none, [.textBlock "Aaa Bbb Ccc Ddd" (some 12)], []⟩

/-- A two-word name document for the amended name/title witness. -/
def nameWitnessDoc : Document := ⟨none, [.textBlock "John Doe" (some 12)], []⟩

/-- A document with the empty string as title: set, but Python-falsy. -/
def emptyTitleDoc : Document := ⟨some "", [], []⟩

/-- A small well-formed document for the renderer witness. -/
def renderWitnessDoc : Document :=
  ⟨some "T", [.heading 2 "Head" none false, .textBlock "body" none], []⟩

/-- Concrete stages for the orchestration witness. -/
def witnessStages : PipelineStages :=
  ⟨id, fun d _ => d, fun d _ => d, detectHeadingsInDocument, formatDocument⟩

/-! ## Claim theorems -/

/-- C4: adding a level-0 `ListItem` whose marker type differs from the
`ListBlock`'s `list_type` raises `ValueError` and leaves the block — in
particular its `items` list — unchanged. -/
theorem add_item_mismatch_rejected (lb : ListBlock) (item : ListItem)
    (hlvl : item.level = 0) (hne : item.marker.marker_type ≠ lb.list_type) :
    (lb.add_item item).1 = Except.error ("List type mismatch: expected "
        ++ lb.list_type.value ++ ", got " ++ item.marker.marker_type.value)
      ∧ (lb.add_item item).2 = lb := by
  unfold ListBlock.add_item
  rw [if_pos (by simp [hlvl, hne])]
  exact ⟨rfl, rfl⟩

/-- Witness for C4: a concrete unordered item rejected by a concrete
ordered block, which stays empty. -/
theorem add_item_mismatch_rejected_witness :
    (mismatchBlock.add_item mismatchItem).1 = Except.error ("List type mismatch: expected "
        ++ mismatchBlock.list_type.value ++ ", got " ++ mismatchItem.marker.marker_type.value)
      ∧ (mismatchBlock.add_item mismatchItem).2 = mismatchBlock :=
  add_item_mismatch_rejected mismatchBlock mismatchItem rfl (by decide)

/-- C2 (evaluation at the failing input): `ListBlock.to_markdown` looks
the rendered item up by dataclass equality, so two value-identical
ordered items both render with number 1 instead of sequentially; items
with original symbols `"1"`, `"5"`, `"2"` do render as 1., 2., 3. -/
theorem ordered_list_numbering_eval :
    dupOrderedBlock.toMarkdown = "1. foo\n1. foo"
      ∧ symbolBlock.toMarkdown = "1. alpha\n2. beta\n3. gamma" :=
  ⟨rfl, rfl⟩

/-- C6 (evaluation at the failing input): with `y_position` the top of
each line, the gap between the bottom of the upper line (90) and the top
of the lower line (80) is 10, but `vertical_spacing_to` subtracts the
lower line's height and returns 0. -/
theorem vertical_spacing_uses_lower_height :
    upperLine.vertical_spacing_to lowerLine = 0
      ∧ (upperLine.y_position - upperLine.height) - lowerLine.y_position = 10
      ∧ upperLine.vertical_spacing_to lowerLine
          ≠ (upperLine.y_position - upperLine.height) - lowerLine.y_position :=
  ⟨by decide, by decide, by decide⟩

/-- C3: on the two lines `"1. First item"`, `"2. Second item"` at the
same x-position, the list detector finds exactly two level-0 ordered
items with the marker stripped from the contents, grouping yields one
ordered `ListBlock`, and it renders to exactly
`"1. First item\n2. Second item"`. -/
theorem end_to_end_scenario1 :
    detectListItemsFromLines defaultListConfig [scenarioLine1, scenarioLine2]
        = [scenarioItem1, scenarioItem2]
      ∧ scenarioItem1.level = 0 ∧ scenarioItem2.level = 0
      ∧ scenarioItem1.marker.marker_type = ListType.ordered
      ∧ scenarioItem2.marker.marker_type = ListType.ordered
      ∧ scenarioItem1.content = "First item" ∧ scenarioItem2.content = "Second item"
      ∧ groupListItemsIntoBlocks [scenarioItem1, scenarioItem2]
          = .ok [ListBlock.mk ListType.ordered [scenarioItem1, scenarioItem2] .nil]
      ∧ (ListBlock.mk ListType.ordered [scenarioItem1, scenarioItem2] .nil).toMarkdown
          = "1. First item\n2. Second item" :=
  ⟨by decide, rfl, rfl, rfl, rfl, rfl, rfl, rfl, rfl⟩

/-- C7: when line extraction raises, the orchestration proceeds with no
lines, skips the list and code stages entirely, and still completes the
conversion of the paragraph-level document (the result is `ok`, built
from paragraph detection, heading detection and formatting only). -/
theorem process_pdf_line_extraction_fallback (st : PipelineStages)
    (parsed : Document) (e : String) :
    processPdfFile st parsed (Except.error e)
      = Except.ok (st.format (st.headingDetect (st.paragraphDetect parsed))) := rfl

/-- C8: a `CodeBlock` built from `["def f():", "    return 1"]` has the
newline-joined content with original whitespace intact, and its rendered
Markdown contains `"    return 1"` verbatim. -/
theorem codeblock_preserves_whitespace :
    sampleCodeBlock.content = "def f():\n    return 1"
      ∧ pyContains sampleCodeBlock.toMarkdown "    return 1" = true
      ∧ sampleCodeBlock.toMarkdown = "```\ndef f():\n    return 1\n```" :=
  ⟨rfl, rfl, rfl⟩

/-! ## String lemmas for the renderer equivalence -/

/-- The character list of an appended string. -/
theorem strData_append (a b : String) : (a ++ b).data = a.data ++ b.data := rfl

/-- A string with a character in its data is not empty. -/
theorem str_ne_empty_of_mem {s : String} {c : Char} (h : c ∈ s.data) : s ≠ "" :=
  fun he => List.ne_nil_of_mem h (congrArg String.data he)

/-- `dropWhile` never removes an element that fails the predicate. -/
theorem mem_dropWhile_of_not {p : Char → Bool} {c : Char} (hc : p c = false) :
    ∀ {l : List Char}, c ∈ l → c ∈ l.dropWhile p := by
  intro l h
  induction l with
  | nil => cases h
  | cons a as ih =>
    by_cases ha : p a = true
    · rw [List.dropWhile_cons_of_pos ha]
      rcases List.mem_cons.mp h with rfl | h'
      · rw [ha] at hc; cases hc
      · exact ih h'
    · rw [List.dropWhile_cons_of_neg ha]
      exact h

/-- Stripping preserves every non-whitespace character. -/
theorem mem_stripL {c : Char} (hc : pyIsSpace c = false) {l : List Char}
    (h : c ∈ l) : c ∈ stripL l := by
  unfold stripL rstripL lstripL
  exact List.mem_reverse.mpr
    (mem_dropWhile_of_not hc (List.mem_reverse.mpr (mem_dropWhile_of_not hc h)))

/-- A string containing a non-whitespace character does not strip to the
empty string. -/
theorem pyStrip_ne_empty {s : String} {c : Char} (hc : pyIsSpace c = false)
    (h : c ∈ s.data) : pyStrip s ≠ "" :=
  fun he => List.ne_nil_of_mem (mem_stripL hc h) (congrArg String.data he)

/-- If every character is whitespace, the left strip is empty. -/
theorem lstripL_eq_nil_of_all {l : List Char}
    (h : ∀ c ∈ l, pyIsSpace c = true) : lstripL l = [] := by
  unfold lstripL
  induction l with
  | nil => rfl
  | cons a as ih =>
    rw [List.dropWhile_cons_of_pos (h a (List.mem_cons_self a as))]
    exact ih (fun c hc => h c (List.mem_cons_of_mem a hc))

/-- A string that strips to non-empty contains a non-whitespace
character. -/
theorem exists_ink_of_strip_ne {s : String} (h : pyStrip s ≠ "") :
    ∃ c ∈ s.data, pyIsSpace c = false := by
  by_contra hno
  push_neg at hno
  apply h
  have hall : ∀ c ∈ s.data, pyIsSpace c = true := by
    intro c hc
    exact Bool.ne_false_iff.mp (hno c hc)
  show String.mk (stripL s.data) = ""
  unfold stripL
  rw [lstripL_eq_nil_of_all hall]
  rfl

/-- Removing trailing newlines preserves every non-newline character. -/
theorem mem_rstripNl_data {s : String} {c : Char} (hc : c ≠ '\n')
    (h : c ∈ s.data) : c ∈ (rstripNl s).data := by
  unfold rstripNl
  exact List.mem_reverse.mpr
    (mem_dropWhile_of_not (by simpa using hc) (List.mem_reverse.mpr h))

/-- A character of a member string is a character of the join. -/
theorem pyJoin_mem {sep : String} : ∀ {l : List String} {s : String} {c : Char},
    s ∈ l → c ∈ s.data → c ∈ (pyJoin sep l).data := by
  intro l
  induction l with
  | nil => intro s c hs _; cases hs
  | cons x xs ih =>
    intro s c hs hc
    cases xs with
    | nil =>
      rcases List.mem_cons.mp hs with rfl | h'
      · exact hc
      · cases h'
    | cons y ys =>
      show c ∈ (x ++ sep ++ pyJoin sep (y :: ys)).data
      rw [strData_append, strData_append]
      rcases List.mem_cons.mp hs with rfl | h'
      · exact List.mem_append_left _ (List.mem_append_left _ hc)
      · exact List.mem_append_right _ (ih h' hc)

/-- Every non-blank line of a paragraph contributes a part containing
its stripped text to the `preserve_line_breaks` part list. -/
theorem preserveParts_mem {n : Nat} {line : Line} {c : Char}
    (hc : c ∈ (pyStrip line.text).data) (hne : pyStrip line.text ≠ "") :
    ∀ {lines : List Line} (i : Nat), line ∈ lines →
      ∃ s ∈ preserveParts n i lines, c ∈ s.data := by
  intro lines
  induction lines with
  | nil => intro i h; cases h
  | cons hd tl ih =>
    intro i h
    rcases List.mem_cons.mp h with rfl | h'
    · refine ⟨if i < n - 1 then pyStrip line.text ++ "  " else pyStrip line.text, ?_, ?_⟩
      · show _ ∈ preserveParts n i (line :: tl)
        rw [preserveParts, if_pos hne]
        exact List.mem_append_left _ (List.mem_cons_self _ _)
      · by_cases hi : i < n - 1
        · rw [if_pos hi, strData_append]
          exact List.mem_append_left _ hc
        · rw [if_neg hi]
          exact hc
    · obtain ⟨s, hs, hcs⟩ := ih (i + 1) h'
      refine ⟨s, ?_, hcs⟩
      show s ∈ preserveParts n i (hd :: tl)
      rw [preserveParts]
      exact List.mem_append_right _ hs

/-- Every well-formed block renders either to the empty string or to a
string containing at least one non-whitespace character. -/
theorem block_markdown_blank_or_ink (b : Block) (hwf : b.wf) :
    b.toMarkdown = "" ∨ ∃ c ∈ b.toMarkdown.data, pyIsSpace c = false := by
  cases b with
  | heading level content fs ib =>
    right
    refine ⟨'#', ?_, by decide⟩
    show '#' ∈ ((String.mk (List.replicate level '#') ++ " ") ++ pyStrip content).data
    rw [strData_append, strData_append]
    refine List.mem_append_left _ (List.mem_append_left _ ?_)
    exact List.mem_replicate.mpr ⟨Nat.pos_iff_ne_zero.mp hwf.1, rfl⟩
  | textBlock content fs =>
    by_cases hex : ∃ c ∈ content.data, pyIsSpace c = false
    · right
      obtain ⟨c, hc, hns⟩ := hex
      exact ⟨c, mem_stripL hns hc, hns⟩
    · left
      by_contra hne
      exact hex (exists_ink_of_strip_ne hne)
  | paragraph lines tf fs ic plb =>
    by_cases hemp : paragraphIsEmpty lines = true
    · left
      show paragraphToMarkdown lines tf plb = ""
      rw [paragraphToMarkdown, if_pos hemp]
    · right
      have hline : ∃ line ∈ lines, pyStrip line.text ≠ "" := by
        have := hemp
        unfold paragraphIsEmpty at this
        simpa using this
      obtain ⟨line, hl, hne⟩ := hline
      obtain ⟨c, hcl, hns⟩ := exists_ink_of_strip_ne hne
      have hcs : c ∈ (pyStrip line.text).data := mem_stripL hns hcl
      show ∃ c ∈ (paragraphToMarkdown lines tf plb).data, pyIsSpace c = false
      rw [paragraphToMarkdown, if_neg (by simp [hemp])]
      by_cases hp : plb = true
      · rw [hp, if_pos rfl]
        obtain ⟨s, hs, hcss⟩ := preserveParts_mem hcs hne 0 hl
        refine ⟨c, ?_, hns⟩
        rw [strData_append]
        exact List.mem_append_left _ (pyJoin_mem hs hcss)
      · rw [if_neg hp]
        have hcc : c ∈ (pyStrip (paragraphContent lines)).data :=
          mem_stripL hns (pyJoin_mem (List.mem_map_of_mem Line.text hl) hcl)
        refine ⟨c, ?_, hns⟩
        cases tf with
        | none =>
          show c ∈ (pyStrip (paragraphContent lines) ++ "\n").data
          rw [strData_append]
          exact List.mem_append_left _ hcc
        | some flow =>
          show c ∈ (if flow.indentation > 5 then
              "    " ++ pyStrip (paragraphContent lines) ++ "\n"
            else pyStrip (paragraphContent lines) ++ "\n").data
          by_cases hind : flow.indentation > 5
          · rw [if_pos hind, strData_append, strData_append]
            exact List.mem_append_left _ (List.mem_append_right _ hcc)
          · rw [if_neg hind, strData_append]
            exact List.mem_append_left _ hcc
  | listB lb =>
    cases lb with
    | mk t items nested =>
      cases items with
      | nil => left; rfl
      | cons item rest =>
        right
        show ∃ c ∈ (pyJoin "\n"
          (renderListLines t (item :: rest) nested.renderAll 0 (item :: rest))).data,
          pyIsSpace c = false
        have hhead : formatItemMarkdown t (item :: rest) item
            ∈ renderListLines t (item :: rest) nested.renderAll 0 (item :: rest) := by
          rw [renderListLines]
          exact List.mem_append_left _ (List.mem_cons_self _ _)
        by_cases ht : t = ListType.unordered
        · refine ⟨'-', pyJoin_mem hhead ?_, by decide⟩
          show '-' ∈ (formatItemMarkdown t (item :: rest) item).data
          rw [formatItemMarkdown, if_pos ht, strData_append, strData_append]
          have hdash : '-' ∈ "- ".data := by decide
          exact List.mem_append_left _ (List.mem_append_right _ hdash)
        · refine ⟨'.', pyJoin_mem hhead ?_, by decide⟩
          show '.' ∈ (formatItemMarkdown t (item :: rest) item).data
          rw [formatItemMarkdown, if_neg ht, strData_append, strData_append, strData_append]
          have hdot : '.' ∈ ". ".data := by decide
          exact List.mem_append_left _ (List.mem_append_right _ hdot)
  | codeB cb =>
    right
    refine ⟨'`', ?_, by decide⟩
    show '`' ∈ ("```" ++ (if cb.language = CodeLanguage.unknown then ""
        else cb.language.value) ++ "\n" ++ cb.content ++ "\n```").data
    rw [strData_append, strData_append, strData_append, strData_append]
    exact List.mem_append_left _ (List.mem_append_left _ (List.mem_append_left _
      (List.mem_append_left _ (by decide))))

/-- On a well-formed block, one step of the source's part loop agrees
with one step of the specification's part loop. -/
theorem partsStep_eq (ps : List String) (b : Block) (hwf : b.wf) :
    markdownPartsStep ps b = specPartsStep ps b := by
  rcases block_markdown_blank_or_ink b hwf with hempty | ⟨c, hc, hns⟩
  · rw [markdownPartsStep, specPartsStep, hempty]
    simp
  · have hne : b.toMarkdown ≠ "" := str_ne_empty_of_mem hc
    have hnl : c ≠ '\n' := by
      intro h
      rw [h] at hns
      cases hns
    have hstrip : pyStrip (rstripNl b.toMarkdown) ≠ "" :=
      pyStrip_ne_empty hns (mem_rstripNl_data hnl hc)
    rw [markdownPartsStep, specPartsStep, if_pos hne, if_pos hstrip, if_neg hne]

/-- The two part loops agree on lists of well-formed blocks, from any
accumulator. -/
theorem partsFold_eq (blocks : List Block) (hwf : ∀ b ∈ blocks, b.wf) :
    ∀ init : List String,
      blocks.foldl markdownPartsStep init = blocks.foldl specPartsStep init := by
  induction blocks with
  | nil => intro init; rfl
  | cons b bs ih =>
    intro init
    rw [List.foldl_cons, List.foldl_cons,
      partsStep_eq init b (hwf b (List.mem_cons_self b bs))]
    exact ih (fun x hx => hwf x (List.mem_cons_of_mem b hx)) _

/-- C1 counterexample: on a document whose title is the empty string the
title is *set* ("present"), yet the source emits nothing (Python
truthiness), while the claim's reading emits the title heading; the
claimed equality fails at this input (whose block list is trivially
well-formed, being empty). -/
theorem toMarkdown_title_counterexample :
    Document.toMarkdown emptyTitleDoc ≠ formatDocumentSpecClaim emptyTitleDoc
      ∧ Document.toMarkdown emptyTitleDoc = ""
      ∧ formatDocumentSpecClaim emptyTitleDoc = "#" :=
  ⟨by decide, rfl, rfl⟩

/-- C1 (amended): with "a title is present" read as a non-empty title,
`Document.to_markdown` (and hence `format_document`) equals, on every
document whose blocks satisfy their constructors' validation, the
spec-worded renderer: title heading plus blank line, each block's output
with trailing newlines stripped, blocks rendering to the empty string
skipped entirely, exactly one blank line after every heading, and the
final result right-stripped. -/
theorem toMarkdown_follows_spec (d : Document) (hwf : ∀ b ∈ d.blocks, b.wf) :
    d.toMarkdown = formatDocumentSpecAmended d
      ∧ formatDocument d = formatDocumentSpecAmended d := by
  have h : d.toMarkdown = formatDocumentSpecAmended d := by
    unfold Document.toMarkdown formatDocumentSpecAmended formatDocumentSpecOf
    simp only [partsFold_eq d.blocks hwf]
  exact ⟨h, h⟩

/-- Witness for C1: the amended equality evaluated on a concrete
document with a title, a heading and a text block. -/
theorem toMarkdown_follows_spec_witness :
    Document.toMarkdown renderWitnessDoc = formatDocumentSpecAmended renderWitnessDoc
      ∧ formatDocument renderWitnessDoc = formatDocumentSpecAmended renderWitnessDoc :=
  toMarkdown_follows_spec renderWitnessDoc (by
    intro b hb
    rcases List.mem_cons.mp hb with rfl | hb2
    · exact ⟨by norm_num, by norm_num, by decide⟩
    · rcases List.mem_cons.mp hb2 with rfl | hb3
      · trivial
      · exact absurd hb3 (List.not_mem_nil b))

/-! ## Lemmas for the heading-detector claim -/

/-- The head surviving a `dropWhile` fails the predicate. -/
theorem dropWhile_head_false {p : Char → Bool} :
    ∀ {l : List Char} {c : Char} {cs : List Char},
      l.dropWhile p = c :: cs → p c = false := by
  intro l
  induction l with
  | nil => intro c cs h; cases h
  | cons a as ih =>
    intro c cs h
    by_cases ha : p a = true
    · rw [List.dropWhile_cons_of_pos ha] at h
      exact ih h
    · rw [List.dropWhile_cons_of_neg ha] at h
      injection h with h1 _
      subst h1
      simp only [Bool.not_eq_true] at ha
      exact ha

/-- Stripping is idempotent on character lists. -/
theorem stripL_idem (l : List Char) : stripL (stripL l) = stripL l := by
  rcases hs : stripL l with _ | ⟨c, cs⟩
  · rfl
  · have hc : pyIsSpace c = false := by
      obtain ⟨t, ht⟩ :=
        List.rdropWhile_prefix pyIsSpace (l := lstripL l)
      have hA : (lstripL l).dropWhile pyIsSpace = c :: (cs ++ t) := by
        have hrw : (lstripL l).rdropWhile pyIsSpace = stripL l := rfl
        rw [hrw, hs] at ht
        have hization : lstripL l = c :: (cs ++ t) := by
          rw [← ht]; simp
        calc (lstripL l).dropWhile pyIsSpace
            = lstripL (lstripL l) := rfl
          _ = lstripL l := by
              show (l.dropWhile pyIsSpace).dropWhile pyIsSpace = l.dropWhile pyIsSpace
              exact List.dropWhile_idempotent _ _
          _ = c :: (cs ++ t) := hization
      exact dropWhile_head_false hA
    have h1 : lstripL (stripL l) = stripL l := by
      rw [hs]
      show (c :: cs).dropWhile pyIsSpace = c :: cs
      rw [List.dropWhile_cons_of_neg (by simp [hc])]
    have h2 : rstripL (stripL l) = stripL l := by
      show (stripL l).rdropWhile pyIsSpace = stripL l
      have hx : stripL l = (l.dropWhile pyIsSpace).rdropWhile pyIsSpace := rfl
      rw [hx]
      exact List.rdropWhile_idempotent pyIsSpace _
    rw [← hs]
    show rstripL (lstripL (stripL l)) = stripL l
    rw [h1, h2]

/-- `str.strip()` is idempotent. -/
theorem pyStrip_idem (s : String) : pyStrip (pyStrip s) = pyStrip s :=
  congrArg String.mk (stripL_idem s.data)

/-- A classifiable block has a Python-truthy font size. -/
theorem classifiable_font {b : Block} (h : isClassifiable b = true) :
    fontTruthy (blockFontSize b) = true := by
  cases b <;> simpa [isClassifiable, blockFontSize] using h

/-- A classifiable block has some font size. -/
theorem classifiable_some_font {b : Block} (h : isClassifiable b = true) :
    ∃ q : ℚ, blockFontSize b = some q := by
  have hf := classifiable_font h
  cases hfs : blockFontSize b with
  | none => rw [hfs] at hf; cases hf
  | some q => exact ⟨q, rfl⟩

/-- A classifiable block in the list makes the extracted font-size list
non-empty. -/
theorem extractFontSizes_ne_nil {blocks : List Block} {b : Block}
    (hb : b ∈ blocks) (hc : isClassifiable b = true) :
    extractFontSizes blocks ≠ [] := by
  obtain ⟨q, hq⟩ := classifiable_some_font hc
  apply List.ne_nil_of_mem (a := q)
  exact List.mem_filterMap.mpr ⟨b, hb, by rw [if_pos hc, hq]⟩

/-- Under the amended conditions (2–3 title-case words), the source's
name/title heuristic accepts the content. -/
theorem nameOrTitle_of_conditions (content : String)
    (hstrip : pyStrip content = content)
    (hwords : 2 ≤ (pySplit content).length ∧ (pySplit content).length ≤ 3)
    (htitle : ∀ w ∈ pySplit content,
      (match w.data with
       | ch :: _ => ch.isUpper
       | [] => true) = true)
    (hfifty : content.length ≤ 50)
    (hnodigit : content.data.any Char.isDigit = false)
    (hnopunct : pyEndsWithAny content ['.', '!', '?', ':', ';'] = false)
    (hnobiz : ∀ w ∈ businessWords, pyContains (pyLower content) w = false) :
    isLikelyNameOrTitle content = true := by
  unfold isLikelyNameOrTitle
  rw [hstrip]
  have hguard : (2 ≤ (pySplit content).length && (pySplit content).length ≤ 4
      && content.length ≤ 50
      && (pySplit content).all (fun w =>
           match w.data with
           | ch :: _ => ch.isUpper
           | [] => true)
      && !(content.data.any Char.isDigit)
      && !(pyEndsWithAny content ['.', '!', '?', ':', ';'])) = true := by
    simp only [Bool.and_eq_true, decide_eq_true_eq, Bool.not_eq_true',
      List.all_eq_true]
    refine ⟨⟨⟨⟨⟨hwords.1, by omega⟩, hfifty⟩, htitle⟩, hnodigit⟩, hnopunct⟩
  rw [if_pos hguard]
  by_cases hind : nameIndicators.any (fun i => pyContains (pyLower content) i) = true
  · rw [if_pos hind]
  · have hbiz : businessWords.any (fun w => pyContains (pyLower content) w) = false := by
      rw [List.any_eq_false]
      intro w hw
      simp [hnobiz w hw]
    rw [if_neg hind, if_neg (by simp [hbiz]),
      if_pos (by simp only [Bool.and_eq_true, decide_eq_true_eq]
                 exact ⟨hwords.1, hwords.2⟩)]

/-- C5 counterexample: `"Aaa Bbb Ccc Ddd"` satisfies every condition of
the claim (four Title-Case words, 15 ≤ 50 chars, no digits, no terminal
punctuation, no business-role word, not contact info, not a resume
section, font size present), yet `detect_headings_in_document` leaves it
a plain text block: the heuristic only accepts 2–3 words (or a
name-indicator suffix). -/
theorem detectHeadings_fourWords_counterexample :
    (detectHeadingsInDocument fourWordDoc).blocks.get? 0
        = some (Block.textBlock "Aaa Bbb Ccc Ddd" (some 12))
      ∧ (detectHeadingsInDocument fourWordDoc).blocks.get? 0
          ≠ some (Block.heading 1 "Aaa Bbb Ccc Ddd" (some 12) false) := by
  refine ⟨rfl, fun h => ?_⟩
  rw [show (detectHeadingsInDocument fourWordDoc).blocks.get? 0
      = some (Block.textBlock "Aaa Bbb Ccc Ddd" (some 12)) from rfl] at h
  exact Block.noConfusion (Option.some.inj h)

/-- C5 (amended): a text-bearing block with a truthy font size whose
stripped content passes the claim's gates (length in [1, 300], not
contact info, not a resume-section match) and consists of 2 to **3**
Title-Case words, at most 50 characters, without digits, terminal
punctuation or business-role words, is classified as a level-1 heading
by `detect_headings_in_document`. -/
theorem detectHeadings_name_level1 (d : Document) (i : Nat) (b : Block)
    (hb : d.blocks.get? i = some b)
    (hclass : isClassifiable b = true)
    (hlen : 1 ≤ (pyStrip (getBlockContent b)).length
      ∧ (pyStrip (getBlockContent b)).length ≤ 300)
    (hcontact : isContactInfo (pyStrip (getBlockContent b)) = false)
    (hresume : detectResumeSectionHeader (pyStrip (getBlockContent b)) = none)
    (hwords : 2 ≤ (pySplit (pyStrip (getBlockContent b))).length
      ∧ (pySplit (pyStrip (getBlockContent b))).length ≤ 3)
    (htitle : ∀ w ∈ pySplit (pyStrip (getBlockContent b)),
      (match w.data with
       | ch :: _ => ch.isUpper
       | [] => true) = true)
    (hfifty : (pyStrip (getBlockContent b)).length ≤ 50)
    (hnodigit : (pyStrip (getBlockContent b)).data.any Char.isDigit = false)
    (hnopunct : pyEndsWithAny (pyStrip (getBlockContent b))
      ['.', '!', '?', ':', ';'] = false)
    (hnobiz : ∀ w ∈ businessWords,
      pyContains (pyLower (pyStrip (getBlockContent b))) w = false) :
    (detectHeadingsInDocument d).blocks.get? i
      = some (Block.heading 1 (getBlockContent b) (blockFontSize b) (isLikelyBold b)) := by
  have hmem : b ∈ d.blocks := List.get?_mem hb
  have hne : d.blocks.isEmpty = false := by
    cases hbl : d.blocks with
    | nil => rw [hbl] at hb; cases hb
    | cons x xs => rfl
  have hsizes : extractFontSizes d.blocks ≠ [] := extractFontSizes_ne_nil hmem hclass
  have hdet : ∀ baseline : ℚ, determineHeadingLevel b baseline = some 1 := by
    intro baseline
    unfold determineHeadingLevel
    rw [if_neg (by rw [classifiable_font hclass]; simp)]
    rw [if_neg (by
      simp only [Bool.or_eq_true, decide_eq_true_eq, not_or, not_lt]
      omega)]
    rw [if_neg (by simp [hcontact])]
    rw [hresume]
    rw [if_pos (nameOrTitle_of_conditions _
      (pyStrip_idem (getBlockContent b)) hwords htitle hfifty hnodigit hnopunct
      hnobiz)]
  unfold detectHeadingsInDocument
  rw [if_neg (by simp [hne]), if_neg hsizes]
  show (d.blocks.map (headingTransform (calculateBaselineFontSize (extractFontSizes d.blocks)))).get? i = _
  rw [List.get?_map, hb]
  show some (headingTransform _ b) = _
  unfold headingTransform
  rw [if_pos hclass, hdet]

/-- Witness for C5: the two-word name `"John Doe"` at baseline font size
satisfies every hypothesis and is classified H1. -/
theorem detectHeadings_name_level1_witness :
    (detectHeadingsInDocument nameWitnessDoc).blocks.get? 0
      = some (Block.heading 1 "John Doe" (some 12) false) :=
  detectHeadings_name_level1 nameWitnessDoc 0 (Block.textBlock "John Doe" (some 12))
    rfl (by decide) (by decide) (by decide) (by decide) (by decide) (by decide)
    (by decide) (by decide) (by decide) (by decide)

/-! ## Lemmas for the language-detector claim -/

/-- Every language in the built-in table has overall weight 1. -/
theorem languagePatterns_weight {lang : CodeLanguage} {p : LanguagePattern}
    (h : languagePatterns lang = some p) : p.weight = 1 := by
  cases lang with
  | python => cases h; rfl
  | javascript => cases h; rfl
  | java => cases h; rfl
  | cpp => cases h; rfl
  | sql => cases h; rfl
  | html => cases h; rfl
  | json => cases h; rfl
  | unknown => cases h

/-- The guarded keyword/syntax ratio of `get_confidence_score` is
non-negative. -/
theorem ratio_nonneg (m n : Nat) :
    (0 : ℚ) ≤ (if n > 0 then (m : ℚ) / n else 0) := by
  split
  · positivity
  · exact le_refl 0

/-- The guarded character confidence of `get_confidence_score` is
non-negative. -/
theorem charTerm_nonneg (chars : List Char) (m n : Nat) :
    (0 : ℚ) ≤ (if chars ≠ [] then min ((m : ℚ) / n) 1 else 0) := by
  split
  · exact le_min (by positivity) zero_le_one
  · exact le_refl 0

/-- C10: for a known language whose pattern set yields zero keyword
matches, zero syntax-pattern matches and zero distinctive-character
occurrences, `get_confidence_score` is exactly 0; and on every input and
language the score lies in [0, 1]. -/
theorem getConfidenceScore_zero_and_bounds :
    (∀ (text : String) (lang : CodeLanguage) (p : LanguagePattern),
        languagePatterns lang = some p →
        kwMatchCount p text = 0 → synMatchCount p text = 0 →
        charOccCount p text = 0 →
        getConfidenceScore text lang = 0)
      ∧ ∀ (text : String) (lang : CodeLanguage),
          0 ≤ getConfidenceScore text lang ∧ getConfidenceScore text lang ≤ 1 := by
  constructor
  · intro text lang p hp hkw hsyn hchar
    have hlang : lang ≠ CodeLanguage.unknown := by
      intro h
      subst h
      exact Option.noConfusion hp
    unfold getConfidenceScore
    by_cases hstrip : pyStrip text = ""
    · rw [if_pos (by simp [hstrip])]
    · rw [if_neg (by simp [hlang, hstrip]), hp]
      dsimp only
      rw [hkw, hsyn, hchar]
      simp [languagePatterns_weight hp]
  · intro text lang
    unfold getConfidenceScore
    split
    · exact ⟨le_refl 0, zero_le_one⟩
    · split
      · exact ⟨le_refl 0, zero_le_one⟩
      · rename_i p hp
        refine ⟨?_, ?_⟩
        · simp only [languagePatterns_weight hp, mul_one]
          refine le_min ?_ zero_le_one
          refine le_trans ?_ (le_max_left _ _)
          refine mul_nonneg ?_ (by norm_num)
          refine le_trans (ratio_nonneg (kwMatchCount p text) p.keywords.length)
            (le_max_left _ _)
        · exact min_le_right _ _

/-- Witness for C10: `"zz"` matches nothing in the Python pattern set,
so the score is exactly 0, and it lies in [0, 1]. -/
theorem getConfidenceScore_zero_and_bounds_witness :
    getConfidenceScore "zz" CodeLanguage.python = 0
      ∧ 0 ≤ getConfidenceScore "zz" CodeLanguage.python
      ∧ getConfidenceScore "zz" CodeLanguage.python ≤ 1 :=
  ⟨getConfidenceScore_zero_and_bounds.1 "zz" CodeLanguage.python pythonPattern
      rfl rfl rfl rfl,
   (getConfidenceScore_zero_and_bounds.2 "zz" CodeLanguage.python).1,
   (getConfidenceScore_zero_and_bounds.2 "zz" CodeLanguage.python).2⟩
